import Mathlib

/-!
# DAISY descriptor extractor: dense field and sparse row resolution

Shallow embedding of `src/src/daisy_feature.cpp` (class `DaisyDescriptorExtractor`)
together with the parts of the matrix library and of the `daisy` engine that the
extractor calls.

Conventions of the embedding.

* A C++ `int` is an `Int`; every `int` product and sum of the source is followed by
  `wrap32` (two-complement reduction), and every conversion of a floating value to `int`
  is `int_cast`.  Signed overflow and out-of-range conversions are undefined in C++; the
  definitions follow x86-64 hardware there, and the theorems assume they do not occur.
* A `float` or `double` is a finite binary value `m * 2^e` (`Flt`).  Arithmetic is exact
  and `Flt.round24` rounds to the 24-bit significand of a 32-bit float (nearest, ties to
  even).  The exponent range, infinities and NaN are not represented.
* A `cv::Mat` is its header (`rows`, `cols`, depth, channels) and its elements as a
  function of row and column.  Library operations (`create`, `clone`, `copyTo`, `row`,
  `col`) follow their documented behaviour, including the range assertion of `row` and
  `col`.
* The `daisy` engine is external.  The object `*desc_` is represented by the list of the
  state-changing calls it has received, and its two read-outs (`descriptor_size`,
  `get_dense_descriptors`) are arbitrary functions of that list, supplied as a parameter.
* A `void` method that may throw returns an `Outcome`: the error thrown (if any), the
  caller-visible output matrix and the engine object as they are when the call ends.
-/

namespace DaisyFeature

/-! ## Machine numbers -/

/-- Reduction of an integer to the range of a 32-bit signed `int`. -/
def wrap32 (z : Int) : Int := (z + 2147483648) % 4294967296 - 2147483648

/-- The values that fit a 32-bit signed `int`. -/
abbrev fits_int (z : Int) : Prop := -2147483648 ≤ z ∧ z < 2147483648

/-- Conversion to `int` of a floating value whose integer part is `z` (the cast `(int)`,
and the store of a sum into a `CV_32S` element): `z` itself when it fits; otherwise the
conversion is undefined in C++ and gives `INT_MIN` on x86-64, without wrapping. -/
def int_cast (z : Int) : Int := if fits_int z then z else -2147483648

/-- Finite binary floating-point value `m * 2^e`. -/
structure Flt where
  m : Int
  e : Int
deriving DecidableEq, Repr

namespace Flt

/-- Conversion of an integer to a floating value (exact). -/
def ofInt (i : Int) : Flt := ⟨i, 0⟩

/-- Exact sum. -/
def add (a b : Flt) : Flt :=
  let e := min a.e b.e
  ⟨a.m * 2 ^ (a.e - e).toNat + b.m * 2 ^ (b.e - e).toNat, e⟩

/-- Exact product. -/
def mul (a b : Flt) : Flt := ⟨a.m * b.m, a.e + b.e⟩

/-- Integer part, rounding toward zero: the value of the C++ cast `(int)` before it is
reduced to 32 bits. -/
def trunc (a : Flt) : Int :=
  if 0 ≤ a.e then a.m * 2 ^ a.e.toNat else Int.tdiv a.m (2 ^ (-a.e).toNat)

/-- Number of binary digits of `n`, by repeated halving (`fuel` bounds the number of
halvings; `n` itself is always enough). -/
def bitLengthAux : Nat → Nat → Nat
  | 0, _ => 0
  | fuel + 1, n => if n = 0 then 0 else bitLengthAux fuel (n / 2) + 1

/-- Number of binary digits of `n`. -/
def bitLength (n : Nat) : Nat := bitLengthAux n n

/-- Rounding to a 24-bit significand, to nearest with ties to even: the value stored when
a result is written to a `float`. -/
def round24 (a : Flt) : Flt :=
  if a.m.natAbs < 16777216 then a
  else
    let s := bitLength a.m.natAbs - 24
    let q := a.m / 2 ^ s
    let r := a.m % 2 ^ s
    let half : Int := 2 ^ (s - 1)
    if r < half then ⟨q, a.e + s⟩
    else if half < r then ⟨q + 1, a.e + s⟩
    else if q % 2 = 0 then ⟨q, a.e + s⟩ else ⟨q + 1, a.e + s⟩

end Flt

/-! ## Errors -/

/-- The `CV_Assert` conditions that can fail, in the source and in the matrix library. -/
inductive Assertion where
  /-- Line 160: `image.channels() == 1`. -/
  | image_channels
  /-- Lines 130 and 172: `descriptors.rows == keypoints.size()` / `query_points.rows`. -/
  | descriptors_rows
  /-- Lines 131 and 171: `descriptors.cols == dense_descriptor.cols` / `descriptor_size()`. -/
  | descriptors_cols
  /-- Lines 132 and 173: `descriptors.type() == dense_descriptor.type()` / `CV_32F`. -/
  | descriptors_type
  /-- Line 174: `query_points.type() == CV_32F || query_points.type() == CV_32S`. -/
  | query_points_type
  /-- Library, `Mat::row(y)`: `0 <= y && y + 1 <= rows`. -/
  | row_range
  /-- Library, `Mat::col(x)`: `0 <= x && x + 1 <= cols`. -/
  | col_range
deriving DecidableEq, Repr

/-- The exceptions raised through `CV_Error` and `CV_Assert`. -/
inductive CvError where
  /-- Line 74: `CV_Error(CV_StsBadSize, "input image needs to be single-channel")`. -/
  | StsBadSize
  /-- A failed `CV_Assert`. -/
  | StsAssert (a : Assertion)
  /-- Line 187: `CV_Error(CV_StsUnsupportedFormat, ...)`. -/
  | StsUnsupportedFormat
deriving DecidableEq, Repr

/-- The errors raised by a check of the channel count of the image. -/
def CvError.isInvalidChannelCount : CvError → Bool
  | .StsBadSize => true
  | .StsAssert .image_channels => true
  | _ => false

/-- The errors raised by a check of the shape or type of a preallocated output. -/
def CvError.isShapeMismatch : CvError → Bool
  | .StsAssert .descriptors_rows => true
  | .StsAssert .descriptors_cols => true
  | .StsAssert .descriptors_type => true
  | _ => false

/-! ## Matrices -/

/-- Element depth of a matrix. -/
inductive Depth where
  | u8 | s8 | u16 | s16 | s32 | f32 | f64
deriving DecidableEq, Repr

/-- Matrix header and elements. -/
structure Mat where
  rows : Nat
  cols : Nat
  depth : Depth
  channels : Nat
  data : Nat → Nat → Flt

/-- The matrix type as returned by `type()`: depth and channel count. -/
abbrev MatType := Depth × Nat

/-- Type `CV_32F` (one channel of 32-bit floats). -/
def CV_32F : MatType := (Depth.f32, 1)

/-- Type `CV_32S` (one channel of 32-bit integers). -/
def CV_32S : MatType := (Depth.s32, 1)

namespace Mat

/-- Method `type()`. -/
def type (m : Mat) : MatType := (m.depth, m.channels)

/-- Default-constructed matrix `Mat()`. -/
def unset : Mat := ⟨0, 0, Depth.u8, 1, fun _ _ => ⟨0, 0⟩⟩

/-- Method `empty()`: the matrix has no elements. -/
def empty (m : Mat) : Bool := m.rows == 0 || m.cols == 0

/-- Constructor `Mat(rows, cols, type)`: fresh storage; its contents are unspecified and
are represented by zeros. -/
def alloc (rows cols : Nat) (t : MatType) : Mat := ⟨rows, cols, t.1, t.2, fun _ _ => ⟨0, 0⟩⟩

/-- Constructor `Mat(rows, cols, type, ptr)`: a header over the row-major memory at `ptr`. -/
def ofPtr (rows cols : Nat) (t : MatType) (ptr : Nat → Flt) : Mat :=
  ⟨rows, cols, t.1, t.2, fun r c => ptr (r * cols + c)⟩

/-- Method `create(rows, cols, type)`: nothing happens when shape and type already agree,
otherwise the storage is replaced by a fresh one. -/
def create (m : Mat) (rows cols : Nat) (t : MatType) : Mat :=
  if m.rows = rows ∧ m.cols = cols ∧ m.type = t then m else alloc rows cols t

/-- Method `src.copyTo(dst)`: `dst.create(src.rows, src.cols, src.type())`, then the
elements are copied. Returns the new `dst`. -/
def copyTo (src dst : Mat) : Mat :=
  { dst.create src.rows src.cols src.type with data := src.data }

/-- Method `clone()`: `Mat m; copyTo(m); return m`. -/
def clone (src : Mat) : Mat := src.copyTo unset

/-- Method `row(y)`: a one-row header over row `y`, guarded by the range assertion of the
library. -/
def row (m : Mat) (y : Int) : Except CvError Mat :=
  if 0 ≤ y ∧ y + 1 ≤ (m.rows : Int) then
    .ok ⟨1, m.cols, m.depth, m.channels, fun _ c => m.data y.toNat c⟩
  else .error (.StsAssert .row_range)

/-- Method `col(x)`: a one-column header over column `x`, guarded by the range assertion
of the library. -/
def col (m : Mat) (x : Int) : Except CvError Mat :=
  if 0 ≤ x ∧ x + 1 ≤ (m.cols : Int) then
    .ok ⟨m.rows, 1, m.depth, m.channels, fun r _ => m.data r x.toNat⟩
  else .error (.StsAssert .col_range)

/-- The effect on `dst` of `src.copyTo(view)` where `view = dst.row(i)` shares the storage
of `dst`: when `view` already has the shape and type of `src` the elements are written
through into row `i`; otherwise `create` detaches `view` and `dst` is not touched. -/
def copyToRow (src dst : Mat) (i : Nat) : Mat :=
  if src.rows = 1 ∧ src.cols = dst.cols ∧ src.type = dst.type then
    { dst with data := fun r c => if r = i then src.data 0 c else dst.data r c }
  else dst

/-- The elements of row `i`, left to right. -/
def rowVals (m : Mat) (i : Nat) : List Flt := (List.range m.cols).map (m.data i)

end Mat

/-! ## Keypoints -/

/-- Type `cv::Point2f`. -/
structure Point2f where
  x : Flt
  y : Flt

/-- Type `cv::KeyPoint`: a position and detector data that the extractor never reads. -/
structure KeyPoint where
  pt : Point2f
  size : Flt
  angle : Flt
  response : Flt
  octave : Int
  class_id : Int

/-! ## The external engine -/

/-- The state-changing calls made on the `daisy` object. -/
inductive DaisyCall where
  | reset
  | verbose (level : Int)
  | set_image (im : Nat → Flt) (h w : Nat)
  | set_parameters (rad : Flt) (radq thq histq : Int)
  | initialize_single_descriptor_mode
  | compute_descriptors
  | normalize_descriptors

/-- The read-outs of the `daisy` engine, as functions of the calls it has received (oldest
first). -/
structure daisy where
  descriptor_size : List DaisyCall → Nat
  get_dense_descriptors : List DaisyCall → Nat → Flt

/-- The data members of `DaisyDescriptorExtractor`; `desc_` is the engine object, given by
the calls it has received. -/
structure DaisyDescriptorExtractor where
  verbose_level_ : Int
  rad_ : Flt
  radq_ : Int
  thq_ : Int
  histq_ : Int
  desc_ : List DaisyCall

/-- What a call leaves behind: the error thrown (none on normal return), the output matrix
of the caller and the engine object. -/
structure Outcome where
  error : Option CvError
  descriptors : Mat
  desc_ : List DaisyCall

namespace DaisyDescriptorExtractor

/-- Lines 56-65: `DaisyDescriptorExtractor(double rad, int radq, int histq, int thq)`. -/
def ctor (rad : Flt) (radq histq thq : Int) : DaisyDescriptorExtractor :=
  { verbose_level_ := 0
    rad_ := rad
    radq_ := radq
    thq_ := thq
    histq_ := histq
    desc_ := [.set_parameters rad radq thq histq] }

/-- Lines 71-113: `compute_dense(image, descriptors)`. -/
def compute_dense (E : daisy) (self : DaisyDescriptorExtractor) (image descriptors : Mat) :
    Outcome :=
  if image.channels ≠ 1 then ⟨some .StsBadSize, descriptors, self.desc_⟩
  else
    let image_mem : Nat → Flt :=
      fun k => (image.data (k / image.cols) (k % image.cols)).round24
    let desc := self.desc_ ++
      [ .reset,
        .verbose self.verbose_level_,
        .set_image image_mem image.rows image.cols,
        .set_parameters self.rad_ self.radq_ self.thq_ self.histq_,
        .initialize_single_descriptor_mode,
        .compute_descriptors,
        .normalize_descriptors ]
    let internal_descriptor : Mat :=
      Mat.ofPtr (wrap32 (image.rows * image.cols)).toNat (E.descriptor_size desc) CV_32F
        (E.get_dense_descriptors desc)
    if descriptors.empty then ⟨none, internal_descriptor.clone, desc⟩
    else ⟨none, internal_descriptor.copyTo descriptors, desc⟩

/-- Lines 139-143: the dense-field row read for a keypoint, `y*image.cols + x` with
`x = (int)pt.x` and `y = (int)pt.y`. -/
def keypoint_row_index (image_cols : Nat) (kp : KeyPoint) : Int :=
  let x := int_cast kp.pt.x.trunc
  let y := int_cast kp.pt.y.trunc
  wrap32 (wrap32 (y * image_cols) + x)

/-- Lines 137-145: the loop over the keypoints, from index `i` on. -/
def compute_loop (image_cols : Nat) (dense_descriptor : Mat) :
    List KeyPoint → Nat → Mat → Option CvError × Mat
  | [], _, descriptors => (none, descriptors)
  | kp :: rest, i, descriptors =>
    match descriptors.row i with
    | .error err => (some err, descriptors)
    | .ok _ =>
      match dense_descriptor.row (keypoint_row_index image_cols kp) with
      | .error err => (some err, descriptors)
      | .ok target_row =>
        compute_loop image_cols dense_descriptor rest (i + 1) (target_row.copyToRow descriptors i)

/-- Lines 119-146: `compute(image, keypoints, descriptors)`. -/
def compute (E : daisy) (self : DaisyDescriptorExtractor) (image : Mat)
    (keypoints : List KeyPoint) (descriptors : Mat) : Outcome :=
  let dense := self.compute_dense E image Mat.unset
  match dense.error with
  | some err => ⟨some err, descriptors, dense.desc_⟩
  | none =>
    let dense_descriptor := dense.descriptors
    if descriptors.empty then
      let r := compute_loop image.cols dense_descriptor keypoints 0
        (Mat.alloc keypoints.length dense_descriptor.cols dense_descriptor.type)
      ⟨r.1, r.2, dense.desc_⟩
    else if descriptors.rows ≠ keypoints.length then
      ⟨some (.StsAssert .descriptors_rows), descriptors, dense.desc_⟩
    else if descriptors.cols ≠ dense_descriptor.cols then
      ⟨some (.StsAssert .descriptors_cols), descriptors, dense.desc_⟩
    else if descriptors.type ≠ dense_descriptor.type then
      ⟨some (.StsAssert .descriptors_type), descriptors, dense.desc_⟩
    else
      let r := compute_loop image.cols dense_descriptor keypoints 0 descriptors
      ⟨r.1, r.2, dense.desc_⟩

/-- Line 177, one element: `col0 + col1 * image.cols` for the entries `x` of column 0 and
`y` of column 1, stored in the element type `t` of `query_points`.  For `CV_32F` the scale
factor, the product and the sum are each rounded to a `float`.  For `CV_32S` the entries
are integers, the sum is formed exactly and converted to `int` (no other type reaches this
line). -/
def fused_index (t : MatType) (x y : Flt) (image_cols : Nat) : Flt :=
  if t = CV_32F then
    (Flt.add x (Flt.mul y (Flt.ofInt image_cols).round24).round24).round24
  else Flt.ofInt (int_cast (Flt.add x (Flt.mul y (Flt.ofInt image_cols))).trunc)

/-- Line 177: `row_indexes = query_points.col(0) + query_points.col(1) * image.cols`, a
one-column matrix of the type of `query_points`. -/
def row_indexes (query_points : Mat) (image_cols : Nat) : Except CvError Mat :=
  match query_points.col 0 with
  | .error err => .error err
  | .ok col0 =>
    match query_points.col 1 with
    | .error err => .error err
    | .ok col1 =>
      .ok { col0 with
        data := fun r c =>
          fused_index query_points.type (col0.data r c) (col1.data r c) image_cols }

/-- Lines 181-188: `source_row_index` for row `j` of `row_indexes`. -/
def source_row_index (query_type : MatType) (row_indexes : Mat) (j : Nat) :
    Except CvError Int :=
  if query_type = CV_32F then .ok (int_cast (row_indexes.data j 0).trunc)
  else if query_type = CV_32S then .ok (int_cast (row_indexes.data j 0).trunc)
  else .error .StsUnsupportedFormat

/-- Lines 180-195: the loop over the rows of `row_indexes`, `n` rows left, from `j` on. -/
def compute_query_loop (query_type : MatType) (row_indexes dense_descriptors_im : Mat) :
    Nat → Nat → Mat → Option CvError × Mat
  | 0, _, descriptors => (none, descriptors)
  | n + 1, j, descriptors =>
    match source_row_index query_type row_indexes j with
    | .error err => (some err, descriptors)
    | .ok idx =>
      match descriptors.row j with
      | .error err => (some err, descriptors)
      | .ok _ =>
        match dense_descriptors_im.row idx with
        | .error err => (some err, descriptors)
        | .ok src =>
          compute_query_loop query_type row_indexes dense_descriptors_im n (j + 1)
            (src.copyToRow descriptors j)

/-- Lines 156-196: `compute(image, query_points, descriptors)`. -/
def compute_query_points (E : daisy) (self : DaisyDescriptorExtractor)
    (image query_points descriptors : Mat) : Outcome :=
  if image.channels ≠ 1 then ⟨some (.StsAssert .image_channels), descriptors, self.desc_⟩
  else
    let dense := self.compute_dense E image Mat.unset
    match dense.error with
    | some err => ⟨some err, descriptors, dense.desc_⟩
    | none =>
      let dense_descriptors_im := dense.descriptors
      let descriptors :=
        if descriptors.empty then
          descriptors.create query_points.rows (E.descriptor_size dense.desc_) CV_32F
        else descriptors
      if descriptors.cols ≠ E.descriptor_size dense.desc_ then
        ⟨some (.StsAssert .descriptors_cols), descriptors, dense.desc_⟩
      else if descriptors.rows ≠ query_points.rows then
        ⟨some (.StsAssert .descriptors_rows), descriptors, dense.desc_⟩
      else if descriptors.type ≠ CV_32F then
        ⟨some (.StsAssert .descriptors_type), descriptors, dense.desc_⟩
      else if ¬ (query_points.type = CV_32F ∨ query_points.type = CV_32S) then
        ⟨some (.StsAssert .query_points_type), descriptors, dense.desc_⟩
      else
        match row_indexes query_points image.cols with
        | .error err => ⟨some err, descriptors, dense.desc_⟩
        | .ok row_indexes =>
          let r := compute_query_loop query_points.type row_indexes dense_descriptors_im
            row_indexes.rows 0 descriptors
          ⟨r.1, r.2, dense.desc_⟩

/-- Lines 198-200: `feature_length()`. -/
def feature_length (E : daisy) (self : DaisyDescriptorExtractor) : Nat :=
  E.descriptor_size self.desc_

end DaisyDescriptorExtractor

/-! ## Auxiliary definitions used in the statements and proofs -/

/-- Row-by-row copy of the rows `idxs` of `dense` into rows `i, i+1, ...` of the output:
the common shape of the two loops of the source. -/
def copy_rows (dense : Mat) : List Int → Nat → Mat → Option CvError × Mat
  | [], _, d => (none, d)
  | s :: rest, i, d =>
    match d.row i with
    | .error err => (some err, d)
    | .ok _ =>
      match dense.row s with
      | .error err => (some err, d)
      | .ok src => copy_rows dense rest (i + 1) (src.copyToRow d i)

/-- The output `d` after its rows `i, i+1, ...` were overwritten with the rows `idxs` of
`dense`. -/
def Mat.withRows (d dense : Mat) (idxs : List Int) (i : Nat) : Mat :=
  ⟨d.rows, d.cols, d.depth, d.channels, fun r c =>
    if i ≤ r ∧ r < i + idxs.length then dense.data (idxs.getD (r - i) 0).toNat c
    else d.data r c⟩

/-- The dense-field row read for row `k` of `query_points`: lines 177 and 181-188
combined, for a query matrix of a supported type. -/
def query_row_index (query_points : Mat) (image_cols : Nat) (k : Nat) : Int :=
  int_cast (DaisyDescriptorExtractor.fused_index query_points.type (query_points.data k 0)
    (query_points.data k 1) image_cols).trunc

/-- The dense field of an image: the result of `compute_dense` into an unset output. -/
def dense_field (E : daisy) (self : DaisyDescriptorExtractor) (image : Mat) : Mat :=
  (self.compute_dense E image Mat.unset).descriptors

/-- The engine object after one dense computation on `image`. -/
def dense_calls (self : DaisyDescriptorExtractor) (image : Mat) : List DaisyCall :=
  self.desc_ ++
    [ .reset,
      .verbose self.verbose_level_,
      .set_image (fun k => (image.data (k / image.cols) (k % image.cols)).round24)
        image.rows image.cols,
      .set_parameters self.rad_ self.radq_ self.thq_ self.histq_,
      .initialize_single_descriptor_mode,
      .compute_descriptors,
      .normalize_descriptors ]

/-- The number of `compute_descriptors` calls in a call history. -/
def compute_descriptors_calls : List DaisyCall → Nat
  | [] => 0
  | .compute_descriptors :: rest => compute_descriptors_calls rest + 1
  | _ :: rest => compute_descriptors_calls rest

/-! ## Concrete inputs -/

/-- An engine whose descriptors have length `len` and whose `float` memory holds the
offset `k`, rounded to a `float`, at offset `k`. -/
def countingEngine (len : Nat) : daisy := ⟨fun _ => len, fun _ k => (Flt.ofInt k).round24⟩

/-- An engine whose descriptors have length `len` and whose `float` memory holds `1` at
the odd offsets and `0` at the even ones. -/
def parityEngine (len : Nat) : daisy := ⟨fun _ => len, fun _ k => Flt.ofInt (k % 2 : Nat)⟩

/-- An 8-bit image of the given size and channel count, all zero. -/
def blankImage (rows cols channels : Nat) : Mat :=
  ⟨rows, cols, Depth.u8, channels, fun _ _ => ⟨0, 0⟩⟩

/-- A keypoint at position `(x, y)`. -/
def keypointAt (x y : Flt) : KeyPoint := ⟨⟨x, y⟩, ⟨0, 0⟩, ⟨0, 0⟩, ⟨0, 0⟩, 0, 0⟩

/-- The `1 x 2` query matrix `(x, y)` of element depth `d`. -/
def queryRow (d : Depth) (x y : Flt) : Mat :=
  ⟨1, 2, d, 1, fun _ c => if c = 0 then x else y⟩

/-- The extractor with the default parameters `15, 3, 8, 8`. -/
def defaultExtractor : DaisyDescriptorExtractor := DaisyDescriptorExtractor.ctor ⟨15, 0⟩ 3 8 8

/-! ## Basic facts -/

open DaisyDescriptorExtractor

theorem wrap32_eq (z : Int) (h1 : -2147483648 ≤ z) (h2 : z < 2147483648) : wrap32 z = z := by
  unfold wrap32; omega

theorem int_cast_eq (z : Int) (h1 : -2147483648 ≤ z) (h2 : z < 2147483648) : int_cast z = z := by
  unfold int_cast; rw [if_pos ⟨h1, h2⟩]

theorem Mat.create_rows (m : Mat) (r c : Nat) (t : MatType) : (m.create r c t).rows = r := by
  unfold Mat.create; split
  · next h => exact h.1
  · rfl

theorem Mat.create_cols (m : Mat) (r c : Nat) (t : MatType) : (m.create r c t).cols = c := by
  unfold Mat.create; split
  · next h => exact h.2.1
  · rfl

theorem Mat.create_type (m : Mat) (r c : Nat) (t : MatType) : (m.create r c t).type = t := by
  unfold Mat.create; split
  · next h => exact h.2.2
  · rfl

theorem Mat.copyTo_rows (src dst : Mat) : (src.copyTo dst).rows = src.rows :=
  Mat.create_rows _ _ _ _

theorem Mat.copyTo_cols (src dst : Mat) : (src.copyTo dst).cols = src.cols :=
  Mat.create_cols _ _ _ _

theorem Mat.copyTo_type (src dst : Mat) : (src.copyTo dst).type = src.type :=
  Mat.create_type _ _ _ _

theorem Mat.copyTo_data (src dst : Mat) : (src.copyTo dst).data = src.data := rfl

/-- The outcome of `compute_dense` on a single-channel image, in closed form. -/
theorem compute_dense_form (E : daisy) (self : DaisyDescriptorExtractor)
    (image descriptors : Mat) (hch : image.channels = 1) :
    ∃ dst, self.compute_dense E image descriptors =
      ⟨none,
        (Mat.ofPtr (wrap32 (image.rows * image.cols)).toNat
          (E.descriptor_size (dense_calls self image)) CV_32F
          (E.get_dense_descriptors (dense_calls self image))).copyTo dst,
        dense_calls self image⟩ := by
  unfold compute_dense dense_calls
  simp only [hch, ne_eq, not_true_eq_false, if_false]
  split
  · exact ⟨Mat.unset, rfl⟩
  · exact ⟨descriptors, rfl⟩

/-- The outcome of `compute_dense` on a single-channel image. -/
theorem compute_dense_single (E : daisy) (self : DaisyDescriptorExtractor)
    (image descriptors : Mat) (hch : image.channels = 1) :
    (self.compute_dense E image descriptors).error = none ∧
    (self.compute_dense E image descriptors).desc_ = dense_calls self image ∧
    (self.compute_dense E image descriptors).descriptors.rows
      = (wrap32 (image.rows * image.cols)).toNat ∧
    (self.compute_dense E image descriptors).descriptors.cols
      = E.descriptor_size (dense_calls self image) ∧
    (self.compute_dense E image descriptors).descriptors.type = CV_32F ∧
    (self.compute_dense E image descriptors).descriptors.data
      = fun r c => E.get_dense_descriptors (dense_calls self image)
          (r * E.descriptor_size (dense_calls self image) + c) := by
  obtain ⟨dst, h⟩ := compute_dense_form E self image descriptors hch
  rw [h]
  refine ⟨rfl, rfl, ?_, ?_, ?_, rfl⟩
  · rw [Mat.copyTo_rows]; simp only [Mat.ofPtr]
  · rw [Mat.copyTo_cols]; simp only [Mat.ofPtr]
  · rw [Mat.copyTo_type]; simp only [Mat.ofPtr, Mat.type]


/-! ## The copy loops -/

theorem Mat.row_ok (m : Mat) (i : Nat) (h : i < m.rows) :
    m.row i = .ok ⟨1, m.cols, m.depth, m.channels, fun _ c => m.data i c⟩ := by
  unfold Mat.row
  rw [if_pos (by omega)]
  simp

theorem Mat.row_int_ok (m : Mat) (s : Int) (h0 : 0 ≤ s) (h1 : s < m.rows) :
    m.row s = .ok ⟨1, m.cols, m.depth, m.channels, fun _ c => m.data s.toNat c⟩ := by
  unfold Mat.row
  rw [if_pos (by omega)]

/-- Writing one row of `dense` through a row view of the output. -/
theorem Mat.copyToRow_row (dense d : Mat) (s i : Nat)
    (hc : dense.cols = d.cols) (ht : dense.type = d.type) :
    Mat.copyToRow ⟨1, dense.cols, dense.depth, dense.channels, fun _ c => dense.data s c⟩ d i
      = ⟨d.rows, d.cols, d.depth, d.channels,
          fun r c => if r = i then dense.data s c else d.data r c⟩ := by
  unfold Mat.copyToRow
  rw [if_pos ⟨rfl, hc, ht⟩]

/-- When every index is a row of `dense` the loop ends normally and has written exactly
the rows `i, ..., i + idxs.length - 1` of the output. -/
theorem copy_rows_ok (dense : Mat) : ∀ (idxs : List Int) (i : Nat) (d : Mat),
    dense.cols = d.cols → dense.type = d.type → i + idxs.length ≤ d.rows →
    (∀ s ∈ idxs, 0 ≤ s ∧ s < (dense.rows : Int)) →
    copy_rows dense idxs i d = (none, d.withRows dense idxs i)
  | [], i, d, _, _, _, _ => by
    simp only [copy_rows, Mat.withRows, List.length_nil, Nat.add_zero]
    congr 1
    cases d
    simp only [Mat.mk.injEq, true_and]
    funext r c
    rw [if_neg (by omega)]
  | s :: rest, i, d, hc, ht, hr, hin => by
    have hs := hin s (List.mem_cons_self _ _)
    have hlen : i + 1 + rest.length ≤ d.rows := by simp at hr; omega
    have ih := copy_rows_ok dense rest (i + 1)
      ⟨d.rows, d.cols, d.depth, d.channels,
        fun r c => if r = i then dense.data s.toNat c else d.data r c⟩
      hc ht hlen (fun t ht => hin t (List.mem_cons_of_mem _ ht))
    unfold copy_rows
    rw [Mat.row_ok d i (by omega), Mat.row_int_ok dense s hs.1 hs.2]
    simp only [Mat.copyToRow_row dense d s.toNat i hc ht]
    rw [ih]
    congr 1
    simp only [Mat.withRows, Mat.mk.injEq, true_and]
    funext r c
    by_cases h1 : r = i
    · subst h1; simp
    · by_cases h2 : i + 1 ≤ r ∧ r < i + 1 + rest.length
      · have h3 : i ≤ r ∧ r < i + (s :: rest).length := by simp; omega
        have h4 : r - i = (r - (i + 1)) + 1 := by omega
        rw [if_pos h2, if_pos h3, h4, List.getD_cons_succ]
      · have h3 : ¬ (i ≤ r ∧ r < i + (s :: rest).length) := by simp; omega
        rw [if_neg h2, if_neg h3, if_neg h1]

/-- One step of the keypoint loop. -/
theorem compute_loop_cons (c : Nat) (dense d : Mat) (kp : KeyPoint) (rest : List KeyPoint)
    (i : Nat) :
    compute_loop c dense (kp :: rest) i d =
      match d.row i with
      | .error err => (some err, d)
      | .ok _ =>
        match dense.row (keypoint_row_index c kp) with
        | .error err => (some err, d)
        | .ok target_row => compute_loop c dense rest (i + 1) (target_row.copyToRow d i) :=
  rfl

/-- One step of the query loop. -/
theorem compute_query_loop_succ (t : MatType) (ri dense d : Mat) (n j : Nat) :
    compute_query_loop t ri dense (n + 1) j d =
      match source_row_index t ri j with
      | .error err => (some err, d)
      | .ok idx =>
        match d.row j with
        | .error err => (some err, d)
        | .ok _ =>
          match dense.row idx with
          | .error err => (some err, d)
          | .ok src => compute_query_loop t ri dense n (j + 1) (src.copyToRow d j) :=
  rfl

/-- The keypoint loop is the row copy for the indices of the keypoints. -/
theorem compute_loop_eq (image_cols : Nat) (dense : Mat) :
    ∀ (kps : List KeyPoint) (i : Nat) (d : Mat),
    compute_loop image_cols dense kps i d
      = copy_rows dense (kps.map (keypoint_row_index image_cols)) i d
  | [], _, _ => rfl
  | kp :: rest, i, d => by
    rw [List.map_cons, compute_loop_cons, copy_rows]
    generalize keypoint_row_index image_cols kp = s
    cases d.row i with
    | error err => simp only []
    | ok v =>
      simp only []
      cases dense.row s with
      | error err => simp only []
      | ok src =>
        simp only []
        exact compute_loop_eq image_cols dense rest (i + 1) _

/-- The query loop, for a supported query type, is the row copy for the indices read
from `row_indexes`. -/
theorem compute_query_loop_eq (t : MatType) (ht : t = CV_32F ∨ t = CV_32S)
    (ri dense : Mat) : ∀ (n j : Nat) (d : Mat),
    compute_query_loop t ri dense n j d
      = copy_rows dense ((List.range' j n).map (fun k => int_cast (ri.data k 0).trunc)) j d
  | 0, _, _ => rfl
  | n + 1, j, d => by
    have hidx : source_row_index t ri j = .ok (int_cast (ri.data j 0).trunc) := by
      unfold source_row_index
      rcases ht with h | h
      · rw [if_pos h]
      · subst h; simp [CV_32S, CV_32F]
    rw [List.range'_succ, List.map_cons, compute_query_loop_succ, copy_rows, hidx]
    generalize int_cast (ri.data j 0).trunc = s
    simp only []
    cases d.row j with
    | error err => simp only []
    | ok v =>
      simp only []
      cases dense.row s with
      | error err => simp only []
      | ok src =>
        simp only []
        exact compute_query_loop_eq t ht ri dense n (j + 1) _

/-! ## Index arithmetic -/

/-- A pixel inside the image has its row-major index inside the field. -/
theorem index_in_range (x y R C : Int) (hx0 : 0 ≤ x) (hx : x < C) (hy0 : 0 ≤ y) (hy : y < R) :
    0 ≤ y * C + x ∧ y * C + x < R * C := by
  have hC : 0 ≤ C := by omega
  have h1 : 0 ≤ y * C := Int.mul_nonneg hy0 hC
  have h2 : (y + 1) * C ≤ R * C := Int.mul_le_mul_of_nonneg_right (by omega) hC
  have h3 : (y + 1) * C = y * C + C := by ring
  constructor <;> omega

/-- The same fact for natural numbers. -/
theorem index_in_range_nat (x y R C : Nat) (hx : x < C) (hy : y < R) :
    x + y * C < R * C := by
  have h2 : (y + 1) * C ≤ R * C := Nat.mul_le_mul_right _ hy
  have h3 : (y + 1) * C = y * C + C := by ring
  omega

/-- The index of a keypoint whose truncated position is inside the image is computed
without overflow. -/
theorem keypoint_row_index_eq (R C : Nat) (kp : KeyPoint) (hsize : R * C < 2147483648)
    (hx0 : 0 ≤ kp.pt.x.trunc) (hx : kp.pt.x.trunc < C)
    (hy0 : 0 ≤ kp.pt.y.trunc) (hy : kp.pt.y.trunc < R) :
    keypoint_row_index C kp = kp.pt.y.trunc * C + kp.pt.x.trunc := by
  have h := index_in_range kp.pt.x.trunc kp.pt.y.trunc R C hx0 hx hy0 hy
  have hRC : (R : Int) * C < 2147483648 := by exact_mod_cast hsize
  have hC : (0 : Int) ≤ C := by omega
  have hyC : 0 ≤ kp.pt.y.trunc * C := Int.mul_nonneg hy0 hC
  have hC1 : (C : Int) ≤ R * C := by nlinarith
  have hR1 : (R : Int) ≤ R * C := by nlinarith
  unfold keypoint_row_index
  simp only
  rw [int_cast_eq kp.pt.x.trunc (by omega) (by omega),
    int_cast_eq kp.pt.y.trunc (by omega) (by omega),
    wrap32_eq (kp.pt.y.trunc * C) (by omega) (by omega),
    wrap32_eq _ (by omega) (by omega)]

/-- Rows written by the copy loop read back as the rows of the dense field. -/
theorem withRows_rowVals (d dense : Mat) (idxs : List Int) (k : Nat) (hk : k < idxs.length)
    (hc : dense.cols = d.cols) :
    (d.withRows dense idxs 0).rowVals k = dense.rowVals (idxs.getD k 0).toNat := by
  unfold Mat.rowVals Mat.withRows
  simp only [hc]
  apply List.map_congr_left
  intro c _
  rw [if_pos (by omega)]
  simp

/-! ## The two sparse entry points in closed form -/

/-- The dense field of a single-channel image: shape, type and elements. -/
theorem dense_field_single (E : daisy) (self : DaisyDescriptorExtractor) (image : Mat)
    (hch : image.channels = 1) :
    (dense_field E self image).rows = (wrap32 (image.rows * image.cols)).toNat ∧
    (dense_field E self image).cols = E.descriptor_size (dense_calls self image) ∧
    (dense_field E self image).type = CV_32F ∧
    (dense_field E self image).data
      = fun r c => E.get_dense_descriptors (dense_calls self image)
          (r * E.descriptor_size (dense_calls self image) + c) :=
  (compute_dense_single E self image Mat.unset hch).2.2

/-- The number of rows of the dense field when the pixel count fits an `int`. -/
theorem dense_field_rows (E : daisy) (self : DaisyDescriptorExtractor) (image : Mat)
    (hch : image.channels = 1) (hsize : image.rows * image.cols < 2147483648) :
    (dense_field E self image).rows = image.rows * image.cols := by
  rw [(dense_field_single E self image hch).1]
  have h : ((image.rows * image.cols : Nat) : Int) < 2147483648 := by exact_mod_cast hsize
  rw [← Nat.cast_mul, wrap32_eq _ (by omega) h]
  exact Int.toNat_natCast _

/-- Keypoint-list `compute` on a single-channel image with an output that is empty or
has the shape and type of the result: the call is the row copy into `d0`, the output
after line 133. -/
theorem compute_form (E : daisy) (self : DaisyDescriptorExtractor) (image : Mat)
    (kps : List KeyPoint) (descriptors : Mat) (hch : image.channels = 1)
    (hout : descriptors.empty = true ∨
      (descriptors.rows = kps.length ∧ descriptors.cols = (dense_field E self image).cols ∧
        descriptors.type = (dense_field E self image).type)) :
    ∃ d0 : Mat, d0.rows = kps.length ∧ d0.cols = (dense_field E self image).cols ∧
      d0.type = (dense_field E self image).type ∧
      compute E self image kps descriptors =
        ⟨(copy_rows (dense_field E self image) (kps.map (keypoint_row_index image.cols)) 0 d0).1,
         (copy_rows (dense_field E self image) (kps.map (keypoint_row_index image.cols)) 0 d0).2,
         dense_calls self image⟩ := by
  have h := compute_dense_single E self image Mat.unset hch
  unfold compute
  simp only [h.1, h.2.1, compute_loop_eq]
  by_cases hemp : descriptors.empty = true
  · refine ⟨Mat.alloc kps.length (dense_field E self image).cols (dense_field E self image).type,
      rfl, rfl, rfl, ?_⟩
    rw [if_pos hemp]
    rfl
  · rcases hout with hout | ⟨h1, h2, h3⟩
    · exact absurd hout hemp
    · refine ⟨descriptors, h1, h2, h3, ?_⟩
      unfold dense_field at h2 h3
      rw [if_neg hemp, if_neg (not_not.mpr h1), if_neg (not_not.mpr h2),
        if_neg (not_not.mpr h3)]
      rfl

/-- Line 177 on a query matrix with at least two columns. -/
theorem row_indexes_ok (query_points : Mat) (image_cols : Nat) (h : 2 ≤ query_points.cols) :
    row_indexes query_points image_cols =
      .ok ⟨query_points.rows, 1, query_points.depth, query_points.channels,
        fun r _ => fused_index query_points.type (query_points.data r 0)
          (query_points.data r 1) image_cols⟩ := by
  unfold row_indexes Mat.col
  rw [if_pos (by omega), if_pos (by omega)]
  rfl

/-- Query-matrix `compute` on a single-channel image, with a query matrix of a supported
type and at least two columns and an output that is empty or has the shape and type of the
result: the call is the row copy into `d0`, the output after line 169. -/
theorem compute_query_form (E : daisy) (self : DaisyDescriptorExtractor)
    (image query_points descriptors : Mat) (hch : image.channels = 1)
    (htype : query_points.type = CV_32F ∨ query_points.type = CV_32S)
    (hcols : 2 ≤ query_points.cols)
    (hout : descriptors.empty = true ∨
      (descriptors.cols = E.descriptor_size (dense_calls self image) ∧
        descriptors.rows = query_points.rows ∧ descriptors.type = CV_32F)) :
    ∃ d0 : Mat, d0.rows = query_points.rows ∧
      d0.cols = E.descriptor_size (dense_calls self image) ∧ d0.type = CV_32F ∧
      compute_query_points E self image query_points descriptors =
        ⟨(copy_rows (dense_field E self image)
            ((List.range' 0 query_points.rows).map
              (query_row_index query_points image.cols)) 0 d0).1,
         (copy_rows (dense_field E self image)
            ((List.range' 0 query_points.rows).map
              (query_row_index query_points image.cols)) 0 d0).2,
         dense_calls self image⟩ := by
  have h := compute_dense_single E self image Mat.unset hch
  have hd0 : ∃ d0 : Mat, d0.rows = query_points.rows ∧
      d0.cols = E.descriptor_size (dense_calls self image) ∧ d0.type = CV_32F ∧
      (if descriptors.empty = true then
        descriptors.create query_points.rows (E.descriptor_size (dense_calls self image)) CV_32F
       else descriptors) = d0 := by
    by_cases hemp : descriptors.empty = true
    · exact ⟨_, Mat.create_rows _ _ _ _, Mat.create_cols _ _ _ _, Mat.create_type _ _ _ _,
        if_pos hemp⟩
    · rcases hout with hout | ⟨h1, h2, h3⟩
      · exact absurd hout hemp
      · exact ⟨descriptors, h2, h1, h3, if_neg hemp⟩
  obtain ⟨d0, hr, hc, ht, hd⟩ := hd0
  refine ⟨d0, hr, hc, ht, ?_⟩
  unfold compute_query_points
  rw [if_neg (not_not.mpr hch)]
  simp only [h.1, h.2.1, hd]
  rw [if_neg (not_not.mpr hc), if_neg (not_not.mpr hr), if_neg (not_not.mpr ht),
    if_neg (not_not.mpr htype), row_indexes_ok query_points image.cols hcols]
  simp only [compute_query_loop_eq query_points.type htype]
  rfl

/-- Element `k` of the list of rows read by the query-matrix `compute`. -/
theorem query_indices_getD (query_points : Mat) (image_cols : Nat) (k : Nat)
    (hk : k < query_points.rows) :
    ((List.range' 0 query_points.rows).map (query_row_index query_points image_cols)).getD k 0
      = query_row_index query_points image_cols k := by
  have hk2 : k < ((List.range' 0 query_points.rows).map
      (query_row_index query_points image_cols)).length := by simpa using hk
  rw [List.getD_eq_getElem _ _ hk2, List.getElem_map]
  simp

/-- The fused expression on integer entries of a `CV_32S` matrix. -/
theorem fused_index_int (x y : Int) (image_cols : Nat) :
    fused_index CV_32S (Flt.ofInt x) (Flt.ofInt y) image_cols
      = Flt.ofInt (int_cast (x + y * image_cols)) := by
  simp [fused_index, Flt.add, Flt.mul, Flt.ofInt, Flt.trunc, CV_32S, CV_32F]

/-- Truncation of an integer value. -/
theorem Flt.trunc_ofInt (z : Int) : (Flt.ofInt z).trunc = z := by
  simp [Flt.trunc, Flt.ofInt]

/-- Lines 177-188 on a query matrix of a supported type with at least two columns:
`source_row_index` for row `j` is `query_row_index`. -/
theorem source_row_index_eq (query_points : Mat) (image_cols j : Nat)
    (htype : query_points.type = CV_32F ∨ query_points.type = CV_32S)
    (hcols : 2 ≤ query_points.cols) :
    ∃ ri, row_indexes query_points image_cols = .ok ri ∧
      source_row_index query_points.type ri j
        = .ok (query_row_index query_points image_cols j) := by
  refine ⟨_, row_indexes_ok query_points image_cols hcols, ?_⟩
  unfold source_row_index query_row_index
  rcases htype with h | h
  · rw [if_pos h]
  · rw [h]; simp [CV_32S, CV_32F]

/-- C1. Keypoint-list resolution on a single-channel image whose pixel count fits an
`int`: when the truncated position of every keypoint lies inside the image and the output
is empty or has the shape and type of the result, the call returns normally, the output
has one row per keypoint, and row `i` is the dense-field row `y_i * cols + x_i` of the
`i`-th keypoint, so the rows come in the order of the keypoints. -/
theorem keypoint_rows_in_order (E : daisy) (self : DaisyDescriptorExtractor) (image : Mat)
    (keypoints : List KeyPoint) (descriptors : Mat)
    (hch : image.channels = 1)
    (hsize : image.rows * image.cols < 2147483648)
    (hin : ∀ kp ∈ keypoints, 0 ≤ kp.pt.x.trunc ∧ kp.pt.x.trunc < image.cols ∧
      0 ≤ kp.pt.y.trunc ∧ kp.pt.y.trunc < image.rows)
    (hout : descriptors.empty = true ∨
      (descriptors.rows = keypoints.length ∧
        descriptors.cols = (dense_field E self image).cols ∧
        descriptors.type = (dense_field E self image).type)) :
    (compute E self image keypoints descriptors).error = none ∧
    (compute E self image keypoints descriptors).descriptors.rows = keypoints.length ∧
    ∀ (i : Nat) (hi : i < keypoints.length),
      (compute E self image keypoints descriptors).descriptors.rowVals i =
        (dense_field E self image).rowVals
          (keypoints[i].pt.y.trunc * image.cols + keypoints[i].pt.x.trunc).toNat := by
  obtain ⟨d0, hr, hc, ht, hform⟩ := compute_form E self image keypoints descriptors hch hout
  have hrows := dense_field_rows E self image hch hsize
  have hidx : ∀ kp ∈ keypoints,
      keypoint_row_index image.cols kp = kp.pt.y.trunc * image.cols + kp.pt.x.trunc :=
    fun kp hkp => keypoint_row_index_eq image.rows image.cols kp hsize
      (hin kp hkp).1 (hin kp hkp).2.1 (hin kp hkp).2.2.1 (hin kp hkp).2.2.2
  have hrange : ∀ s ∈ keypoints.map (keypoint_row_index image.cols),
      0 ≤ s ∧ s < ((dense_field E self image).rows : Int) := by
    intro s hs
    obtain ⟨kp, hkp, rfl⟩ := List.mem_map.mp hs
    rw [hidx kp hkp, hrows, Nat.cast_mul]
    exact index_in_range _ _ _ _ (hin kp hkp).1 (hin kp hkp).2.1 (hin kp hkp).2.2.1
      (hin kp hkp).2.2.2
  have hok := copy_rows_ok (dense_field E self image)
    (keypoints.map (keypoint_row_index image.cols)) 0 d0 hc.symm ht.symm
    (by simp [hr]) hrange
  rw [hform, hok]
  refine ⟨rfl, hr, fun i hi => ?_⟩
  have hi2 : i < (keypoints.map (keypoint_row_index image.cols)).length := by simpa using hi
  simp only
  rw [withRows_rowVals d0 _ _ i hi2 hc.symm, List.getD_eq_getElem _ _ hi2, List.getElem_map,
    hidx _ (List.getElem_mem _)]

/-! ## The dense field -/

/-- C8. On a single-channel image of `R x C` pixels (`R * C` fitting an `int`),
`compute_dense` returns normally and leaves in the output a matrix of exactly `R * C` rows
and `feature_length()` columns, `feature_length()` being read after the computation,
whether the output was empty or not on entry. -/
theorem compute_dense_shape (E : daisy) (self : DaisyDescriptorExtractor)
    (image descriptors : Mat)
    (hch : image.channels = 1)
    (hsize : image.rows * image.cols < 2147483648) :
    (self.compute_dense E image descriptors).error = none ∧
    (self.compute_dense E image descriptors).descriptors.rows = image.rows * image.cols ∧
    (self.compute_dense E image descriptors).descriptors.cols =
      feature_length E
        { self with desc_ := (self.compute_dense E image descriptors).desc_ } := by
  have h := compute_dense_single E self image descriptors hch
  have hcast : ((image.rows * image.cols : Nat) : Int) < 2147483648 := by exact_mod_cast hsize
  refine ⟨h.1, ?_, ?_⟩
  · rw [h.2.2.1, ← Nat.cast_mul, wrap32_eq _ (by omega) hcast]
    exact Int.toNat_natCast _
  · rw [h.2.2.2.1, h.2.1]
    rfl

/-! ## Channel count -/

/-- C5. On an image with more than one channel, `compute_dense` and both sparse `compute`
entry points fail with an error of the channel-count check (`CV_StsBadSize` for
`compute_dense` and the keypoint-list `compute`, the failed assertion
`image.channels() == 1` for the query-matrix `compute`); the engine has received no call
and the output matrix is untouched. -/
theorem multichannel_rejected (E : daisy) (self : DaisyDescriptorExtractor)
    (image descriptors query_points : Mat) (keypoints : List KeyPoint)
    (hch : 1 < image.channels) :
    self.compute_dense E image descriptors = ⟨some .StsBadSize, descriptors, self.desc_⟩ ∧
    compute E self image keypoints descriptors = ⟨some .StsBadSize, descriptors, self.desc_⟩ ∧
    compute_query_points E self image query_points descriptors
      = ⟨some (.StsAssert .image_channels), descriptors, self.desc_⟩ ∧
    CvError.StsBadSize.isInvalidChannelCount = true ∧
    (CvError.StsAssert .image_channels).isInvalidChannelCount = true := by
  have hne : image.channels ≠ 1 := by omega
  have hd : ∀ d, self.compute_dense E image d = ⟨some .StsBadSize, d, self.desc_⟩ := by
    intro d
    unfold compute_dense
    rw [if_pos hne]
  refine ⟨hd descriptors, ?_, ?_, rfl, rfl⟩
  · unfold compute
    simp only [hd Mat.unset]
  · unfold compute_query_points
    rw [if_pos hne]

/-! ## Coordinate-matrix resolution -/

/-- C2. Coordinate-matrix resolution with a `CV_32S` query matrix of two columns on a
single-channel image whose pixel count fits an `int`: when every query `(x_j, y_j)` lies
inside the image and the output is empty or has the shape and type of the result, the call
returns normally, the output has one row per query, and row `j` is the dense-field row
`x_j + y_j * cols`. -/
theorem query_int_rows (E : daisy) (self : DaisyDescriptorExtractor)
    (image query_points descriptors : Mat) (x y : Nat → Nat)
    (hch : image.channels = 1)
    (hsize : image.rows * image.cols < 2147483648)
    (htype : query_points.type = CV_32S)
    (hcols : query_points.cols = 2)
    (hq : ∀ j, j < query_points.rows →
      query_points.data j 0 = Flt.ofInt (x j) ∧ query_points.data j 1 = Flt.ofInt (y j) ∧
      x j < image.cols ∧ y j < image.rows)
    (hout : descriptors.empty = true ∨
      (descriptors.cols = E.descriptor_size (dense_calls self image) ∧
        descriptors.rows = query_points.rows ∧ descriptors.type = CV_32F)) :
    (compute_query_points E self image query_points descriptors).error = none ∧
    (compute_query_points E self image query_points descriptors).descriptors.rows
      = query_points.rows ∧
    ∀ j, j < query_points.rows →
      (compute_query_points E self image query_points descriptors).descriptors.rowVals j =
        (dense_field E self image).rowVals (x j + y j * image.cols) := by
  obtain ⟨d0, hr, hc, ht, hform⟩ := compute_query_form E self image query_points descriptors
    hch (Or.inr htype) (by omega) hout
  have hrows := dense_field_rows E self image hch hsize
  have hD := dense_field_single E self image hch
  have hRC : ((image.rows : Int) * image.cols) < 2147483648 := by exact_mod_cast hsize
  have hidx : ∀ j, j < query_points.rows →
      query_row_index query_points image.cols j = ((x j + y j * image.cols : Nat) : Int) ∧
      x j + y j * image.cols < image.rows * image.cols := by
    intro j hj
    obtain ⟨h0, h1, hx, hy⟩ := hq j hj
    have hr := index_in_range (x j) (y j) image.rows image.cols (by omega)
      (by exact_mod_cast hx) (by omega) (by exact_mod_cast hy)
    have hsum : ((x j : Int) + y j * image.cols) = (y j : Int) * image.cols + x j := by ring
    unfold query_row_index
    have hw := int_cast_eq ((y j : Int) * image.cols + x j) (by omega) (by omega)
    rw [h0, h1, htype, fused_index_int, Flt.trunc_ofInt, hsum, hw, hw]
    exact ⟨by push_cast; ring, index_in_range_nat _ _ _ _ hx hy⟩
  have hrange : ∀ s ∈ (List.range' 0 query_points.rows).map
      (query_row_index query_points image.cols),
      0 ≤ s ∧ s < ((dense_field E self image).rows : Int) := by
    intro s hs
    obtain ⟨j, hj, rfl⟩ := List.mem_map.mp hs
    have hj2 : j < query_points.rows := by
      have := List.mem_range'_1.mp hj
      omega
    rw [(hidx j hj2).1, hrows]
    exact ⟨Int.ofNat_nonneg _, Int.ofNat_lt.mpr (hidx j hj2).2⟩
  have hok := copy_rows_ok (dense_field E self image) _ 0 d0 (hD.2.1.trans hc.symm)
    (hD.2.2.1.trans ht.symm) (by simp [hr]) hrange
  rw [hform, hok]
  refine ⟨rfl, hr, fun j hj => ?_⟩
  simp only
  rw [withRows_rowVals d0 _ _ j (by simpa using hj) (hD.2.1.trans hc.symm),
    query_indices_getD _ _ _ hj, (hidx j hj).1, Int.toNat_natCast]

/-! ## Engine configuration -/

/-- C6, as stated, fails: with a `2 x 1` output for one keypoint (and for one query row)
both sparse entry points fail on the row count, yet the engine has by then run
`compute_descriptors`. -/
theorem shape_check_after_dense_computation :
    (compute (countingEngine 1) defaultExtractor (blankImage 1 1 1)
      [keypointAt (Flt.ofInt 0) (Flt.ofInt 0)] (Mat.alloc 2 1 CV_32F)).error
      = some (.StsAssert .descriptors_rows) ∧
    compute_descriptors_calls
      (compute (countingEngine 1) defaultExtractor (blankImage 1 1 1)
        [keypointAt (Flt.ofInt 0) (Flt.ofInt 0)] (Mat.alloc 2 1 CV_32F)).desc_ = 1 ∧
    (compute_query_points (countingEngine 1) defaultExtractor (blankImage 1 1 1)
      (queryRow Depth.s32 (Flt.ofInt 0) (Flt.ofInt 0)) (Mat.alloc 2 1 CV_32F)).error
      = some (.StsAssert .descriptors_rows) ∧
    compute_descriptors_calls
      (compute_query_points (countingEngine 1) defaultExtractor (blankImage 1 1 1)
        (queryRow Depth.s32 (Flt.ofInt 0) (Flt.ofInt 0)) (Mat.alloc 2 1 CV_32F)).desc_ = 1 ∧
    compute_descriptors_calls defaultExtractor.desc_ = 0 := by
  decide

/-- C6, amended. On a single-channel image, a non-empty output whose row count differs
from the number of queries, whose column count differs from the descriptor length or whose
type is not `CV_32F` makes either sparse entry point fail with a shape assertion; the
check comes after the dense computation (the engine is in the state `compute_dense` leaves)
and before any row is copied (the output is unchanged). -/
theorem shape_mismatch_rejected (E : daisy) (self : DaisyDescriptorExtractor)
    (image query_points descriptors : Mat) (keypoints : List KeyPoint)
    (hch : image.channels = 1) (hne : descriptors.empty = false) :
    ((descriptors.rows ≠ keypoints.length ∨
        descriptors.cols ≠ E.descriptor_size (dense_calls self image) ∨
        descriptors.type ≠ CV_32F) →
      ∃ e, e.isShapeMismatch = true ∧
        compute E self image keypoints descriptors
          = ⟨some e, descriptors, dense_calls self image⟩) ∧
    ((descriptors.rows ≠ query_points.rows ∨
        descriptors.cols ≠ E.descriptor_size (dense_calls self image) ∨
        descriptors.type ≠ CV_32F) →
      ∃ e, e.isShapeMismatch = true ∧
        compute_query_points E self image query_points descriptors
          = ⟨some e, descriptors, dense_calls self image⟩) := by
  have h := compute_dense_single E self image Mat.unset hch
  have hemp : ¬ descriptors.empty = true := by simp [hne]
  constructor
  · intro hbad
    unfold compute
    simp only [h.1, h.2.1, h.2.2.2.1, h.2.2.2.2.1]
    rw [if_neg hemp]
    by_cases h1 : descriptors.rows = keypoints.length
    · by_cases h2 : descriptors.cols = E.descriptor_size (dense_calls self image)
      · have h3 : descriptors.type ≠ CV_32F := by
          rcases hbad with hb | hb | hb
          · exact absurd h1 hb
          · exact absurd h2 hb
          · exact hb
        rw [if_neg (not_not.mpr h1), if_neg (not_not.mpr h2), if_pos h3]
        exact ⟨.StsAssert .descriptors_type, rfl, rfl⟩
      · rw [if_neg (not_not.mpr h1), if_pos h2]
        exact ⟨.StsAssert .descriptors_cols, rfl, rfl⟩
    · rw [if_pos h1]
      exact ⟨.StsAssert .descriptors_rows, rfl, rfl⟩
  · intro hbad
    unfold compute_query_points
    rw [if_neg (not_not.mpr hch)]
    simp only [h.1, h.2.1, if_neg hemp]
    by_cases h2 : descriptors.cols = E.descriptor_size (dense_calls self image)
    · by_cases h1 : descriptors.rows = query_points.rows
      · have h3 : descriptors.type ≠ CV_32F := by
          rcases hbad with hb | hb | hb
          · exact absurd h1 hb
          · exact absurd h2 hb
          · exact hb
        rw [if_neg (not_not.mpr h2), if_neg (not_not.mpr h1), if_pos h3]
        exact ⟨.StsAssert .descriptors_type, rfl, rfl⟩
      · rw [if_neg (not_not.mpr h2), if_pos h1]
        exact ⟨.StsAssert .descriptors_rows, rfl, rfl⟩
    · rw [if_pos h2]
      exact ⟨.StsAssert .descriptors_cols, rfl, rfl⟩

/-! ## Query type -/

/-- C9, as stated, fails: a `CV_64F` query matrix is rejected by the assertion of line
174, not by the unsupported-format error of line 187; and with a preallocated output of
the wrong row count the same call fails on the shape assertion of line 172 instead. -/
theorem unsupported_query_fails_by_assertion :
    (compute_query_points (countingEngine 3) defaultExtractor (blankImage 4 4 1)
      (queryRow Depth.f64 (Flt.ofInt 2) (Flt.ofInt 1)) Mat.unset).error
      = some (.StsAssert .query_points_type) ∧
    (compute_query_points (countingEngine 3) defaultExtractor (blankImage 4 4 1)
      (queryRow Depth.f64 (Flt.ofInt 2) (Flt.ofInt 1)) Mat.unset).error
      ≠ some .StsUnsupportedFormat ∧
    (compute_query_points (countingEngine 3) defaultExtractor (blankImage 4 4 1)
      (queryRow Depth.f64 (Flt.ofInt 2) (Flt.ofInt 1)) (Mat.alloc 5 3 CV_32F)).error
      = some (.StsAssert .descriptors_rows) := by
  decide

/-- C9, amended. A query matrix whose type is neither `CV_32F` nor `CV_32S` makes the
query-matrix `compute` fail, never with the unsupported-format error but with the
assertion on the query type or an earlier channel or shape assertion; no descriptor row is
copied (the output is the one passed in, or its fresh allocation of line 168 when it was
empty); and when the image is single-channel and the output is empty or well shaped the
error is the failed assertion on the query type. -/
theorem unsupported_query_type_rejected (E : daisy) (self : DaisyDescriptorExtractor)
    (image query_points descriptors : Mat)
    (htype : ¬ (query_points.type = CV_32F ∨ query_points.type = CV_32S)) :
    (∃ e, (compute_query_points E self image query_points descriptors).error = some e ∧
      e ≠ .StsUnsupportedFormat ∧
      (e = .StsAssert .query_points_type ∨ e.isInvalidChannelCount = true ∨
        e.isShapeMismatch = true)) ∧
    ((compute_query_points E self image query_points descriptors).descriptors = descriptors ∨
      (descriptors.empty = true ∧
        (compute_query_points E self image query_points descriptors).descriptors
          = descriptors.create query_points.rows
              (E.descriptor_size (dense_calls self image)) CV_32F)) ∧
    (image.channels = 1 →
      (descriptors.empty = true ∨
        (descriptors.cols = E.descriptor_size (dense_calls self image) ∧
          descriptors.rows = query_points.rows ∧ descriptors.type = CV_32F)) →
      (compute_query_points E self image query_points descriptors).error
        = some (.StsAssert .query_points_type)) := by
  by_cases hch : image.channels = 1
  · have h := compute_dense_single E self image Mat.unset hch
    have hd0 : ∃ d0 : Mat,
        (if descriptors.empty = true then
          descriptors.create query_points.rows (E.descriptor_size (dense_calls self image))
            CV_32F
         else descriptors) = d0 ∧
        (d0 = descriptors ∨ (descriptors.empty = true ∧
          d0 = descriptors.create query_points.rows
            (E.descriptor_size (dense_calls self image)) CV_32F)) ∧
        ((descriptors.empty = true ∨
          (descriptors.cols = E.descriptor_size (dense_calls self image) ∧
            descriptors.rows = query_points.rows ∧ descriptors.type = CV_32F)) →
          d0.cols = E.descriptor_size (dense_calls self image) ∧
            d0.rows = query_points.rows ∧ d0.type = CV_32F) := by
      by_cases hemp : descriptors.empty = true
      · exact ⟨_, if_pos hemp, Or.inr ⟨hemp, rfl⟩,
          fun _ => ⟨Mat.create_cols _ _ _ _, Mat.create_rows _ _ _ _, Mat.create_type _ _ _ _⟩⟩
      · refine ⟨_, if_neg hemp, Or.inl rfl, fun hout => ?_⟩
        rcases hout with hout | hout
        · exact absurd hout hemp
        · exact hout
    obtain ⟨d0, hd, hd0, hshape⟩ := hd0
    have hform : compute_query_points E self image query_points descriptors =
        if d0.cols ≠ E.descriptor_size (dense_calls self image) then
          ⟨some (.StsAssert .descriptors_cols), d0, dense_calls self image⟩
        else if d0.rows ≠ query_points.rows then
          ⟨some (.StsAssert .descriptors_rows), d0, dense_calls self image⟩
        else if d0.type ≠ CV_32F then
          ⟨some (.StsAssert .descriptors_type), d0, dense_calls self image⟩
        else ⟨some (.StsAssert .query_points_type), d0, dense_calls self image⟩ := by
      unfold compute_query_points
      rw [if_neg (not_not.mpr hch)]
      simp only [h.1, h.2.1, hd]
      rw [if_pos htype]
    rw [hform]
    refine ⟨?_, ?_, fun _ hout => ?_⟩
    · split
      · exact ⟨_, rfl, by simp, by decide⟩
      · split
        · exact ⟨_, rfl, by simp, by decide⟩
        · split
          · exact ⟨_, rfl, by simp, by decide⟩
          · exact ⟨_, rfl, by simp, by decide⟩
    · split
      · exact hd0
      · split
        · exact hd0
        · split
          · exact hd0
          · exact hd0
    · obtain ⟨h1, h2, h3⟩ := hshape hout
      rw [if_neg (not_not.mpr h1), if_neg (not_not.mpr h2), if_neg (not_not.mpr h3)]
  · have hform : compute_query_points E self image query_points descriptors =
        ⟨some (.StsAssert .image_channels), descriptors, self.desc_⟩ := by
      unfold compute_query_points
      rw [if_pos hch]
    rw [hform]
    exact ⟨⟨_, rfl, by simp, by decide⟩, Or.inl rfl, fun h1 => absurd h1 hch⟩

/-! ## Coordinates outside the image -/

/-- C3. Failing input: on a single-channel `4097 x 4097` image the pixel
`(x = 4095, y = 4096)` has the row index `16785407`, which a 32-bit float cannot hold.
With an engine whose field has `1` in the odd rows and `0` in the even ones, the keypoint
and the integer-typed query both return row `16785407` (`[1]`), while the floating-typed
query returns row `16785408` (`[0]`), the descriptor of the next pixel. -/
theorem float_query_differs_on_large_image :
    (compute (parityEngine 1) defaultExtractor (blankImage 4097 4097 1)
      [keypointAt (Flt.ofInt 4095) (Flt.ofInt 4096)] Mat.unset).descriptors.rowVals 0
      = [Flt.ofInt 1] ∧
    (compute_query_points (parityEngine 1) defaultExtractor (blankImage 4097 4097 1)
      (queryRow Depth.s32 (Flt.ofInt 4095) (Flt.ofInt 4096)) Mat.unset).descriptors.rowVals 0
      = [Flt.ofInt 1] ∧
    (compute_query_points (parityEngine 1) defaultExtractor (blankImage 4097 4097 1)
      (queryRow Depth.f32 (Flt.ofInt 4095) (Flt.ofInt 4096)) Mat.unset).descriptors.rowVals 0
      = [Flt.ofInt 0] ∧
    keypoint_row_index 4097 (keypointAt (Flt.ofInt 4095) (Flt.ofInt 4096)) = 16785407 ∧
    query_row_index (queryRow Depth.f32 (Flt.ofInt 4095) (Flt.ofInt 4096)) 4097 0
      = 16785408 ∧
    (compute (parityEngine 1) defaultExtractor (blankImage 4097 4097 1)
      [keypointAt (Flt.ofInt 4095) (Flt.ofInt 4096)] Mat.unset).descriptors.rowVals 0
      ≠ (compute_query_points (parityEngine 1) defaultExtractor (blankImage 4097 4097 1)
          (queryRow Depth.f32 (Flt.ofInt 4095) (Flt.ofInt 4096)) Mat.unset).descriptors.rowVals 0 := by
  decide

/-! ## The fused index expression -/

/-- C10. Failing input: for the floating query `(x = 0.5, y = 0.5)` on a `4 x 4` image
the fused expression gives `trunc(0.5 + 0.5 * 4) = 2`, the row of pixel `(2, 0)`, while
the keypoint at the same position reads row `trunc(0.5) * 4 + trunc(0.5) = 0`, the row of
pixel `(0, 0)`. -/
theorem fused_index_differs_on_fractions :
    query_row_index (queryRow Depth.f32 ⟨1, -1⟩ ⟨1, -1⟩) 4 0 = 2 ∧
    keypoint_row_index 4 (keypointAt ⟨1, -1⟩ ⟨1, -1⟩) = 0 ∧
    (compute_query_points (countingEngine 1) defaultExtractor (blankImage 4 4 1)
      (queryRow Depth.f32 ⟨1, -1⟩ ⟨1, -1⟩) Mat.unset).descriptors.rowVals 0
      = [Flt.ofInt 2] ∧
    (compute (countingEngine 1) defaultExtractor (blankImage 4 4 1)
      [keypointAt ⟨1, -1⟩ ⟨1, -1⟩] Mat.unset).descriptors.rowVals 0 = [Flt.ofInt 0] := by
  decide

/-! ## The theorems at concrete inputs -/

/-- C1 at a `4 x 4` image with descriptors of length 3 and the keypoints `(2.5, 1)` and
`(0, 3)`: two rows, the dense-field rows `6` and `12`, in that order. -/
theorem keypoint_rows_in_order_witness :
    (compute (countingEngine 3) defaultExtractor (blankImage 4 4 1)
      [keypointAt ⟨5, -1⟩ (Flt.ofInt 1), keypointAt (Flt.ofInt 0) (Flt.ofInt 3)]
      Mat.unset).error = none ∧
    (compute (countingEngine 3) defaultExtractor (blankImage 4 4 1)
      [keypointAt ⟨5, -1⟩ (Flt.ofInt 1), keypointAt (Flt.ofInt 0) (Flt.ofInt 3)]
      Mat.unset).descriptors.rows = 2 ∧
    (compute (countingEngine 3) defaultExtractor (blankImage 4 4 1)
      [keypointAt ⟨5, -1⟩ (Flt.ofInt 1), keypointAt (Flt.ofInt 0) (Flt.ofInt 3)]
      Mat.unset).descriptors.rowVals 0
      = (dense_field (countingEngine 3) defaultExtractor (blankImage 4 4 1)).rowVals 6 ∧
    (compute (countingEngine 3) defaultExtractor (blankImage 4 4 1)
      [keypointAt ⟨5, -1⟩ (Flt.ofInt 1), keypointAt (Flt.ofInt 0) (Flt.ofInt 3)]
      Mat.unset).descriptors.rowVals 1
      = (dense_field (countingEngine 3) defaultExtractor (blankImage 4 4 1)).rowVals 12 :=
  have h := keypoint_rows_in_order (countingEngine 3) defaultExtractor (blankImage 4 4 1)
    [keypointAt ⟨5, -1⟩ (Flt.ofInt 1), keypointAt (Flt.ofInt 0) (Flt.ofInt 3)] Mat.unset
    (by decide) (by decide) (by decide) (Or.inl rfl)
  ⟨h.1, h.2.1, h.2.2 0 (by decide), h.2.2 1 (by decide)⟩

/-- C2 at a `4 x 4` image with descriptors of length 3 and the integer query
`(x = 2, y = 1)`: the output row is dense-field row `1 * 4 + 2 = 6`. -/
theorem query_int_rows_witness :
    (compute_query_points (countingEngine 3) defaultExtractor (blankImage 4 4 1)
      (queryRow Depth.s32 (Flt.ofInt 2) (Flt.ofInt 1)) Mat.unset).error = none ∧
    (compute_query_points (countingEngine 3) defaultExtractor (blankImage 4 4 1)
      (queryRow Depth.s32 (Flt.ofInt 2) (Flt.ofInt 1)) Mat.unset).descriptors.rows = 1 ∧
    (compute_query_points (countingEngine 3) defaultExtractor (blankImage 4 4 1)
      (queryRow Depth.s32 (Flt.ofInt 2) (Flt.ofInt 1)) Mat.unset).descriptors.rowVals 0
      = (dense_field (countingEngine 3) defaultExtractor (blankImage 4 4 1)).rowVals 6 :=
  have h := query_int_rows (countingEngine 3) defaultExtractor (blankImage 4 4 1)
    (queryRow Depth.s32 (Flt.ofInt 2) (Flt.ofInt 1)) Mat.unset (fun _ => 2) (fun _ => 1)
    (by decide) (by decide) (by decide) (by decide) (by decide) (Or.inl rfl)
  ⟨h.1, h.2.1, h.2.2 0 (by decide)⟩

/-- C5 at a three-channel `2 x 2` image. -/
theorem multichannel_rejected_witness :
    (defaultExtractor.compute_dense (countingEngine 3) (blankImage 2 2 3)
      (Mat.alloc 4 3 CV_32F)).error = some .StsBadSize ∧
    (compute (countingEngine 3) defaultExtractor (blankImage 2 2 3)
      [keypointAt (Flt.ofInt 0) (Flt.ofInt 0)] (Mat.alloc 4 3 CV_32F)).error
      = some .StsBadSize ∧
    (compute_query_points (countingEngine 3) defaultExtractor (blankImage 2 2 3)
      (queryRow Depth.s32 (Flt.ofInt 0) (Flt.ofInt 0)) (Mat.alloc 4 3 CV_32F)).error
      = some (.StsAssert .image_channels) :=
  have h := multichannel_rejected (countingEngine 3) defaultExtractor (blankImage 2 2 3)
    (Mat.alloc 4 3 CV_32F) (queryRow Depth.s32 (Flt.ofInt 0) (Flt.ofInt 0))
    [keypointAt (Flt.ofInt 0) (Flt.ofInt 0)] (by decide)
  ⟨congrArg Outcome.error h.1, congrArg Outcome.error h.2.1,
    congrArg Outcome.error h.2.2.1⟩

/-- C6 (amended) at a `1 x 1` image, one keypoint and a `2 x 1` output. -/
theorem shape_mismatch_rejected_witness :
    ∃ e, e.isShapeMismatch = true ∧
      compute (countingEngine 1) defaultExtractor (blankImage 1 1 1)
        [keypointAt (Flt.ofInt 0) (Flt.ofInt 0)] (Mat.alloc 2 1 CV_32F)
        = ⟨some e, Mat.alloc 2 1 CV_32F, dense_calls defaultExtractor (blankImage 1 1 1)⟩ :=
  (shape_mismatch_rejected (countingEngine 1) defaultExtractor (blankImage 1 1 1)
    (queryRow Depth.s32 (Flt.ofInt 0) (Flt.ofInt 0)) (Mat.alloc 2 1 CV_32F)
    [keypointAt (Flt.ofInt 0) (Flt.ofInt 0)] (by decide) (by decide)).1
    (Or.inl (by decide))

/-- C8 at a `4 x 4` image with descriptors of length 3 and a non-empty `1 x 1` output:
`16` rows and `3` columns. -/
theorem compute_dense_shape_witness :
    (defaultExtractor.compute_dense (countingEngine 3) (blankImage 4 4 1)
      (Mat.alloc 1 1 CV_32F)).error = none ∧
    (defaultExtractor.compute_dense (countingEngine 3) (blankImage 4 4 1)
      (Mat.alloc 1 1 CV_32F)).descriptors.rows = 16 ∧
    (defaultExtractor.compute_dense (countingEngine 3) (blankImage 4 4 1)
      (Mat.alloc 1 1 CV_32F)).descriptors.cols = 3 :=
  compute_dense_shape (countingEngine 3) defaultExtractor (blankImage 4 4 1)
    (Mat.alloc 1 1 CV_32F) (by decide) (by decide)

/-- C9 (amended) at a `CV_64F` query matrix. -/
theorem unsupported_query_type_rejected_witness :
    (compute_query_points (countingEngine 3) defaultExtractor (blankImage 4 4 1)
      (queryRow Depth.f64 (Flt.ofInt 2) (Flt.ofInt 1)) Mat.unset).error
      = some (.StsAssert .query_points_type) :=
  (unsupported_query_type_rejected (countingEngine 3) defaultExtractor (blankImage 4 4 1)
    (queryRow Depth.f64 (Flt.ofInt 2) (Flt.ofInt 1)) Mat.unset (by decide)).2.2
    (by decide) (Or.inl rfl)

end DaisyFeature
